import Mathlib

/-!
Verification development for the evidence-building pipeline of the
AI Netflix Dashboard repository (`evidence_builder.py`, with the joined
table shape coming from `data_layer.py`).

The pandas dataframes are embedded as explicit tables: a `DataFrame` is a
list of column names together with a list of rows, a row being an
association list from column name to a cell value.  A cell value (`CVal`)
is either null (pandas NaN), a string, or a number (modelled as `ℚ`).

Pandas behaviours that the functions rely on are embedded explicitly:
  * `groupby(col)[val].sum()` drops rows whose group key is null
    (pandas default `dropna=True`) and returns the group keys in
    ascending order (pandas default `sort=True`);
  * `Series.nunique()` counts distinct non-null values;
  * `fillna(0.0)` after the two-series outer alignment gives 0.0 to a
    key missing from one period;
  * `sort_values(ascending=False)` with the pandas default
    `kind='quicksort'` guarantees only a descending permutation of the
    input (quicksort is documented as not stable); this contract is the
    predicate `SortValuesDesc`, and the executable function `sortDescBy`
    is one refinement of it whose tie order (stable) the program does not
    itself guarantee;
  * Python's `round(x, 2)` is modelled as round-half-to-even at two
    decimal places over `ℚ` (`roundHE2`).
-/

namespace Dash

/-- A pandas cell: NaN/None, a string, or a number (floats idealised as `ℚ`). -/
inductive CVal where
  | null : CVal
  | str : String → CVal
  | num : ℚ → CVal
deriving DecidableEq, Repr

/-- A dataframe row: association list from column name to cell value. -/
def Row : Type := List (String × CVal)

instance : DecidableEq Row := by
  unfold Row
  infer_instance

/-- Cell lookup: a column that is missing from the row reads as null (NaN). -/
def Row.get (r : Row) (c : String) : CVal :=
  match (List.find? (fun p => p.1 == c) r) with
  | some p => p.2
  | none => CVal.null

/-- Numeric view of a cell, as used by pandas `sum()`: NaN (and non-numeric
cells) contribute 0 to sums (`skipna=True`). -/
def Row.getNum (r : Row) (c : String) : ℚ :=
  match Row.get r c with
  | CVal.num q => q
  | _ => 0

/-- A pandas dataframe: its column index and its rows. -/
structure DataFrame where
  cols : List String
  rows : List Row
deriving DecidableEq

/-- `_safe_pct_change` from `evidence_builder.py`: `None` when the previous
value is exactly 0, else `(current - previous) / previous * 100.0`. -/
def safe_pct_change (current previous : ℚ) : Option ℚ :=
  if previous = 0 then none
  else some ((current - previous) / previous * 100)

/-- Round half to even to the nearest integer, Python's `round` on `ℚ`. -/
def roundHE (q : ℚ) : ℤ :=
  if q - ⌊q⌋ < 1 / 2 then ⌊q⌋
  else if 1 / 2 < q - ⌊q⌋ then ⌊q⌋ + 1
  else if ⌊q⌋ % 2 = 0 then ⌊q⌋ else ⌊q⌋ + 1

/-- Python's `round(x, 2)`: round half to even at two decimal places. -/
def roundHE2 (q : ℚ) : ℚ :=
  ((roundHE (q * 100) : ℤ) : ℚ) / 100

/-- A rational is a two-decimal-place quantity when multiplying by 100
clears its denominator. -/
def isRounded2 (q : ℚ) : Prop := (q * 100).den = 1

instance (q : ℚ) : Decidable (isRounded2 q) := by
  unfold isRounded2
  infer_instance

/-- Stable insertion step for `sortB`: `x` is placed before the first
element `y` with `le x y`. -/
def insertB (le : α → α → Bool) (x : α) : List α → List α
  | [] => [x]
  | y :: ys => if le x y then x :: y :: ys else y :: insertB le x ys

/-- Stable insertion sort with a Boolean "may come before" relation. -/
def sortB (le : α → α → Bool) : List α → List α
  | [] => []
  | x :: xs => insertB le x (sortB le xs)

/-- Descending comparison by a rational sort key; ties keep the earlier
element first, so `sortB (descBy f)` is a stable descending sort. -/
def descBy (f : α → ℚ) : α → α → Bool :=
  fun a b => decide (f b ≤ f a)

/-- Executable descending sort by a rational key, used to evaluate the
pipeline.  It is one refinement of the `sort_values(ascending=False)`
contract (`SortValuesDesc`); its tie handling happens to be stable, a
property the program's default quicksort does not guarantee. -/
def sortDescBy (f : α → ℚ) (l : List α) : List α :=
  sortB (descBy f) l

/-- Ascending order on cell values used for the group-key index produced by
pandas `groupby(sort=True)`. -/
def CVal.leB : CVal → CVal → Bool
  | CVal.null, _ => true
  | CVal.str _, CVal.null => false
  | CVal.str s, CVal.str t => decide (s ≤ t)
  | CVal.str _, CVal.num _ => true
  | CVal.num _, CVal.null => false
  | CVal.num _, CVal.str _ => false
  | CVal.num p, CVal.num q => decide (p ≤ q)

/-- All values of one column, in row order. -/
def colValues (df : DataFrame) (c : String) : List CVal :=
  df.rows.map (fun r => Row.get r c)

/-- The group keys of `df.groupby(key)`: the distinct non-null values of the
column (pandas `dropna=True`), in ascending index order (`sort=True`). -/
def groupKeys (df : DataFrame) (key : String) : List CVal :=
  sortB CVal.leB (((colValues df key).filter (fun v => v != CVal.null)).dedup)

/-- Sum of `value` over the rows whose `key` column equals `k`. -/
def sumWhere (df : DataFrame) (key : String) (k : CVal) (value : String) : ℚ :=
  ((df.rows.filter (fun r => Row.get r key == k)).map (fun r => Row.getNum r value)).sum

/-- `df.groupby(key)[value].sum()`: one `(key, sum)` pair per distinct
non-null key, keys ascending. -/
def groupby_sum (df : DataFrame) (key value : String) : List (CVal × ℚ) :=
  (groupKeys df key).map (fun k => (k, sumWhere df key k value))

/-- `nunique()`: the number of distinct non-null values of a column. -/
def nunique (df : DataFrame) (c : String) : Nat :=
  (((colValues df c).filter (fun v => v != CVal.null)).dedup).length

/-- `_top_n` from `evidence_builder.py`: empty when the group column is
missing, otherwise the grouped sums sorted descending and capped at `n`. -/
def top_n (df : DataFrame) (group_col value_col : String) (n : Nat) : List (CVal × ℚ) :=
  if group_col ∉ df.cols then []
  else (sortDescBy (fun p => p.2) (groupby_sum df group_col value_col)).take n

/-- One driver-delta row as emitted by `_delta_table`. -/
structure DeltaRow where
  name : CVal
  current : ℚ
  previous : ℚ
  delta : ℚ
  pct_change : Option ℚ
deriving DecidableEq, Repr

/-- Series lookup by key. -/
def lookupQ (l : List (CVal × ℚ)) (k : CVal) : Option ℚ :=
  (List.find? (fun p => p.1 == k) l).map (fun p => p.2)

/-- The outer-combined key index of the two grouped series (union of the two
key sets, ascending, as pandas index alignment produces). -/
def outer_keys (a b : List (CVal × ℚ)) : List CVal :=
  sortB CVal.leB ((a.map Prod.fst ++ b.map Prod.fst).dedup)

/-- The combined frame of `_delta_table` before sorting/truncation/rounding:
outer alignment of the two grouped sums with `fillna(0.0)`, then
`delta = current - previous` and the safe percent change. -/
def combined_rows (cur_df prev_df : DataFrame) (key value : String) : List DeltaRow :=
  let cs := groupby_sum cur_df key value
  let ps := groupby_sum prev_df key value
  (outer_keys cs ps).map (fun k =>
    let c := (lookupQ cs k).getD 0
    let p := (lookupQ ps k).getD 0
    ⟨k, c, p, c - p, safe_pct_change c p⟩)

/-- The final per-row rounding of `_delta_table`: current/previous/delta to
two decimals, percent change to two decimals when defined. -/
def roundDeltaRow (r : DeltaRow) : DeltaRow :=
  ⟨r.name, roundHE2 r.current, roundHE2 r.previous, roundHE2 r.delta,
    Option.map roundHE2 r.pct_change⟩

/-- `_delta_table` from `evidence_builder.py`. -/
def delta_table (cur_df prev_df : DataFrame) (key value : String) (n : Nat)
    (sort_by_abs : Bool) : List DeltaRow :=
  if key ∉ cur_df.cols ∨ key ∉ prev_df.cols then []
  else
    let combined := combined_rows cur_df prev_df key value
    let sorted := if sort_by_abs then sortDescBy (fun r => |r.delta|) combined
      else sortDescBy (fun r => r.delta) combined
    (sorted.take n).map roundDeltaRow

/-- Unrounded total of the `watch_duration_minutes` column. -/
def totalMinutes (df : DataFrame) : ℚ :=
  (df.rows.map (fun r => Row.getNum r "watch_duration_minutes")).sum

/-- The record produced by `_period_aggregates`. -/
structure PeriodAggregates where
  total_watch_minutes : ℚ
  active_users : Nat
  titles_watched : Nat
  top_genres : List (CVal × ℚ)
  top_titles : List (CVal × ℚ)
  watch_by_device : List (CVal × ℚ)
  watch_by_country : List (CVal × ℚ)
deriving DecidableEq

/-- `_period_aggregates` from `evidence_builder.py`. -/
def period_aggregates (df : DataFrame) : PeriodAggregates :=
  ⟨roundHE2 (totalMinutes df),
    nunique df "user_id",
    nunique df "title",
    top_n df "genre_primary" "watch_duration_minutes" 5,
    top_n df "title" "watch_duration_minutes" 5,
    top_n df "device_type" "watch_duration_minutes" 5,
    top_n df "location_country" "watch_duration_minutes" 5⟩

/-- The `filters` block of the evidence packet (dates as day numbers). -/
structure Filters where
  start_date : ℤ
  end_date : ℤ
  genre : String
deriving DecidableEq

/-- The `previous_window` block of the evidence packet. -/
structure PrevWindow where
  start_date : ℤ
  end_date : ℤ
  days : ℤ
deriving DecidableEq

/-- The `engagement` block of the evidence packet. -/
structure Engagement where
  minutes_per_user_current : ℚ
  minutes_per_user_previous : Option ℚ
  minutes_per_user_pct_change : Option ℚ
deriving DecidableEq

/-- The `changes` block of the evidence packet.  `driver_deltas` is the
dimension-name-to-rows mapping (empty list models the empty dict). -/
structure Changes where
  total_watch_minutes_pct_change : Option ℚ
  active_users_pct_change : Option ℚ
  titles_watched_pct_change : Option ℚ
  previous_window : PrevWindow
  engagement : Engagement
  driver_deltas : List (String × List DeltaRow)
deriving DecidableEq

/-- The evidence packet; `none` models an empty `{}` sub-dict. -/
structure Evidence where
  filters : Filters
  current_period : Option PeriodAggregates
  previous_period : Option PeriodAggregates
  changes : Option Changes
  note : String
deriving DecidableEq

/-- `window_days` of `build_evidence`: `(end_dt - start_dt).days + 1` at
whole-day granularity. -/
def window_days (start_date end_date : ℤ) : ℤ :=
  (end_date - start_date) + 1

/-- `prev_end_dt` of `build_evidence`: `start_dt - timedelta(days=1)`. -/
def prev_end_date (start_date : ℤ) : ℤ :=
  start_date - 1

/-- `prev_start_dt` of `build_evidence`:
`prev_end_dt - timedelta(days=window_days - 1)`. -/
def prev_start_date (start_date end_date : ℤ) : ℤ :=
  prev_end_date start_date - (window_days start_date end_date - 1)

/-- A row's `watch_date` lies in the inclusive day range `[a, b]`; a
non-numeric (null) date compares false, as NaN comparisons do in pandas. -/
def dateInRange (r : Row) (a b : ℤ) : Bool :=
  match Row.get r "watch_date" with
  | CVal.num d => decide ((a : ℚ) ≤ d) && decide (d ≤ (b : ℚ))
  | _ => false

/-- The previous-period slice of `build_evidence`: `full_df` restricted to
the derived previous window (inclusive both ends), then the same genre
filter re-applied when it is not `"All"`. -/
def prev_slice (full_df : DataFrame) (start_date end_date : ℤ)
    (selected_genre : String) : DataFrame :=
  let a := prev_start_date start_date end_date
  let b := prev_end_date start_date
  let byDate : DataFrame :=
    ⟨full_df.cols, full_df.rows.filter (fun r => dateInRange r a b)⟩
  if selected_genre ≠ "All" then
    ⟨byDate.cols,
      byDate.rows.filter (fun r => Row.get r "genre_primary" == CVal.str selected_genre)⟩
  else byDate

/-- `build_evidence` from `evidence_builder.py`. -/
def build_evidence (full_df filtered_df : DataFrame) (start_date end_date : ℤ)
    (selected_genre : String) : Evidence :=
  let filters : Filters := ⟨start_date, end_date, selected_genre⟩
  if filtered_df.rows.isEmpty then
    ⟨filters, none, none, none, "No data available for the selected filters."⟩
  else
    let current := period_aggregates filtered_df
    let wd := window_days start_date end_date
    let pe := prev_end_date start_date
    let psd := prev_start_date start_date end_date
    let prev_df := prev_slice full_df start_date end_date selected_genre
    if prev_df.rows.isEmpty then
      ⟨filters, some current, none,
        some ⟨none, none, none, ⟨psd, pe, wd⟩,
          ⟨roundHE2 (current.total_watch_minutes / ((max current.active_users 1 : ℕ) : ℚ)),
            none, none⟩,
          []⟩,
        "Previous period comparison unavailable (no data in the prior time window)."⟩
    else
      let previous := period_aggregates prev_df
      let current_mpu := current.total_watch_minutes / ((max current.active_users 1 : ℕ) : ℚ)
      let prev_mpu := previous.total_watch_minutes / ((max previous.active_users 1 : ℕ) : ℚ)
      ⟨filters, some current, some previous,
        some ⟨safe_pct_change current.total_watch_minutes previous.total_watch_minutes,
          safe_pct_change (current.active_users : ℚ) (previous.active_users : ℚ),
          safe_pct_change (current.titles_watched : ℚ) (previous.titles_watched : ℚ),
          ⟨psd, pe, wd⟩,
          ⟨roundHE2 current_mpu, some (roundHE2 prev_mpu),
            safe_pct_change current_mpu prev_mpu⟩,
          [("device_type", delta_table filtered_df prev_df "device_type" "watch_duration_minutes" 6 true),
            ("location_country", delta_table filtered_df prev_df "location_country" "watch_duration_minutes" 6 true),
            ("title", delta_table filtered_df prev_df "title" "watch_duration_minutes" 6 true),
            ("genre_primary", delta_table filtered_df prev_df "genre_primary" "watch_duration_minutes" 6 true)]⟩,
        ""⟩

/-! ### Concrete tables used to evaluate the definitions -/

/-- A fully populated watch row at day `d`. -/
def mkRow (d : ℚ) (u t g dev c : String) (m : ℚ) : Row :=
  [("watch_date", CVal.num d), ("user_id", CVal.str u), ("title", CVal.str t),
    ("genre_primary", CVal.str g), ("device_type", CVal.str dev),
    ("location_country", CVal.str c), ("watch_duration_minutes", CVal.num m)]

/-- The columns of the joined table produced by `load_data`. -/
def evCols : List String :=
  ["watch_date", "user_id", "title", "genre_primary", "device_type",
    "location_country", "watch_duration_minutes"]

/-- A table with a null dimension value carrying the largest sum. -/
def exDf8 : DataFrame :=
  ⟨["g", "v"], [[("g", CVal.null), ("v", CVal.num 100)],
    [("g", CVal.str "Drama"), ("v", CVal.num 10)]]⟩

/-- A current table with the `title` column but no rows. -/
def exCur3 : DataFrame := ⟨["title", "watch_duration_minutes"], []⟩

/-- A previous table with a single title worth 50 minutes. -/
def exPrev3 : DataFrame :=
  ⟨["title", "watch_duration_minutes"],
    [[("title", CVal.str "Old Show"), ("watch_duration_minutes", CVal.num 50)]]⟩

/-- Full table: three users on day 9 (previous window), one on day 10. -/
def full7 : DataFrame :=
  ⟨evCols, [mkRow 9 "u1" "t1" "G" "tv" "US" 100,
    mkRow 9 "u2" "t2" "G" "tv" "US" 100,
    mkRow 9 "u3" "t3" "G" "tv" "US" 100,
    mkRow 10 "a" "t" "G" "tv" "US" 100]⟩

/-- Current slice of `full7` for the one-day window `[10, 10]`. -/
def filtered7 : DataFrame := ⟨evCols, [mkRow 10 "a" "t" "G" "tv" "US" 100]⟩

/-- Full table with data only on day 10: the prior window `[9, 9]` is empty. -/
def full5 : DataFrame := ⟨evCols, [mkRow 10 "a" "t" "G" "tv" "US" 100]⟩

/-- Current slice of `full5` for the one-day window `[10, 10]`. -/
def filtered5 : DataFrame := ⟨evCols, [mkRow 10 "a" "t" "G" "tv" "US" 100]⟩

/-- Current table for exercising the delta-table sort: two titles. -/
def exCur6 : DataFrame :=
  ⟨["title", "watch_duration_minutes"],
    [[("title", CVal.str "A"), ("watch_duration_minutes", CVal.num 10)],
      [("title", CVal.str "B"), ("watch_duration_minutes", CVal.num 100)]]⟩

/-- Previous table for exercising the delta-table sort. -/
def exPrev6 : DataFrame :=
  ⟨["title", "watch_duration_minutes"],
    [[("title", CVal.str "A"), ("watch_duration_minutes", CVal.num 40)]]⟩

/-- A row whose `title` cell is null (a watch event without catalog match). -/
def nullTitleRow : Row :=
  [("title", CVal.null), ("watch_duration_minutes", CVal.num 70)]

/-- The guarantee pandas documents for `sort_values(ascending=False)` with
the default `kind='quicksort'`: the output is a permutation of the input
that descends by the sort key.  Quicksort is documented as not stable, so
the relative order of rows with equal keys is not specified beyond this. -/
def SortValuesDesc (f : α → ℚ) (l out : List α) : Prop :=
  l.Perm out ∧ out.Pairwise (fun a b => f b ≤ f a)

instance {α : Type} [DecidableEq α] (f : α → ℚ) (l out : List α) :
    Decidable (SortValuesDesc f l out) := by
  unfold SortValuesDesc
  infer_instance

/-- Current table for the delta-table tie: titles A at 10 and B at 40. -/
def exCur6c : DataFrame :=
  ⟨["title", "watch_duration_minutes"],
    [[("title", CVal.str "A"), ("watch_duration_minutes", CVal.num 10)],
      [("title", CVal.str "B"), ("watch_duration_minutes", CVal.num 40)]]⟩

/-- Previous table for the delta-table tie: titles A at 40 and B at 10, so
the combined deltas are -30 and +30 — equal absolute sort keys. -/
def exPrev6c : DataFrame :=
  ⟨["title", "watch_duration_minutes"],
    [[("title", CVal.str "A"), ("watch_duration_minutes", CVal.num 40)],
      [("title", CVal.str "B"), ("watch_duration_minutes", CVal.num 10)]]⟩

/-! ### Helper lemmas about the stable sort -/

theorem mem_insertB {le : α → α → Bool} {x a : α} {l : List α} :
    a ∈ insertB le x l ↔ a = x ∨ a ∈ l := by
  induction l with
  | nil => simp [insertB]
  | cons y ys ih =>
    simp only [insertB]
    split
    · simp [List.mem_cons]
    · simp only [List.mem_cons, ih]
      tauto

theorem mem_sortB {le : α → α → Bool} {l : List α} {a : α} :
    a ∈ sortB le l ↔ a ∈ l := by
  induction l with
  | nil => simp [sortB]
  | cons x xs ih => simp [sortB, mem_insertB, ih]

theorem pairwise_insertB {le : α → α → Bool}
    (htot : ∀ a b, le a b = true ∨ le b a = true)
    (htrans : ∀ a b c, le a b = true → le b c = true → le a c = true)
    {x : α} {l : List α} (h : l.Pairwise (fun a b => le a b = true)) :
    (insertB le x l).Pairwise (fun a b => le a b = true) := by
  induction l with
  | nil => simp [insertB]
  | cons y ys ih =>
    rcases List.pairwise_cons.1 h with ⟨hy, hys⟩
    simp only [insertB]
    split
    · rename_i hxy
      refine List.pairwise_cons.2 ⟨?_, h⟩
      intro b hb
      rcases List.mem_cons.1 hb with rfl | hb
      · exact hxy
      · exact htrans x y b hxy (hy b hb)
    · rename_i hxy
      have hyx : le y x = true := by
        rcases htot x y with h1 | h1
        · exact absurd h1 hxy
        · exact h1
      refine List.pairwise_cons.2 ⟨?_, ih hys⟩
      intro b hb
      rcases mem_insertB.1 hb with rfl | hb
      · exact hyx
      · exact hy b hb

theorem pairwise_sortB {le : α → α → Bool}
    (htot : ∀ a b, le a b = true ∨ le b a = true)
    (htrans : ∀ a b c, le a b = true → le b c = true → le a c = true)
    (l : List α) :
    (sortB le l).Pairwise (fun a b => le a b = true) := by
  induction l with
  | nil => simp [sortB]
  | cons x xs ih => exact pairwise_insertB htot htrans ih

theorem descBy_total (f : α → ℚ) (a b : α) :
    descBy f a b = true ∨ descBy f b a = true := by
  unfold descBy
  rcases le_total (f a) (f b) with h | h
  · right; exact decide_eq_true h
  · left; exact decide_eq_true h

theorem descBy_trans (f : α → ℚ) (a b c : α) (h1 : descBy f a b = true)
    (h2 : descBy f b c = true) : descBy f a c = true := by
  unfold descBy at *
  exact decide_eq_true (le_trans (of_decide_eq_true h2) (of_decide_eq_true h1))

theorem pairwise_sortDescBy (f : α → ℚ) (l : List α) :
    (sortDescBy f l).Pairwise (fun a b => f b ≤ f a) := by
  have h := pairwise_sortB (descBy_total f) (descBy_trans f) l
  exact h.imp (fun hab => of_decide_eq_true hab)

theorem mem_sortDescBy {f : α → ℚ} {l : List α} {a : α} :
    a ∈ sortDescBy f l ↔ a ∈ l :=
  mem_sortB

theorem perm_insertB {le : α → α → Bool} (x : α) (l : List α) :
    (insertB le x l).Perm (x :: l) := by
  induction l with
  | nil => exact List.Perm.refl _
  | cons y ys ih =>
    simp only [insertB]
    split
    · exact List.Perm.refl _
    · exact (ih.cons y).trans (List.Perm.swap x y ys)

theorem perm_sortB {le : α → α → Bool} (l : List α) : (sortB le l).Perm l := by
  induction l with
  | nil => exact List.Perm.refl _
  | cons x xs ih => exact (perm_insertB x (sortB le xs)).trans (ih.cons x)

theorem sortValuesDesc_sortDescBy (f : α → ℚ) (l : List α) :
    SortValuesDesc f l (sortDescBy f l) :=
  ⟨(perm_sortB l).symm, pairwise_sortDescBy f l⟩

/-! ### Helper lemmas about half-even rounding -/

theorem roundHE_ge_floor (q : ℚ) : ⌊q⌋ ≤ roundHE q := by
  unfold roundHE
  split_ifs <;> omega

theorem roundHE_le_floor_add_one (q : ℚ) : roundHE q ≤ ⌊q⌋ + 1 := by
  unfold roundHE
  split_ifs <;> omega

theorem roundHE_mono {p q : ℚ} (h : p ≤ q) : roundHE p ≤ roundHE q := by
  have hf : ⌊p⌋ ≤ ⌊q⌋ := Int.floor_mono h
  rcases lt_or_eq_of_le hf with hlt | heq
  · have h1 := roundHE_le_floor_add_one p
    have h2 := roundHE_ge_floor q
    omega
  · have hr : p - (⌊q⌋ : ℚ) ≤ q - (⌊q⌋ : ℚ) := by linarith
    unfold roundHE
    rw [heq]
    split_ifs <;> first | omega | linarith

theorem roundHE_intCast (k : ℤ) : roundHE (k : ℚ) = k := by
  unfold roundHE
  rw [Int.floor_intCast]
  norm_num

theorem roundHE_neg (q : ℚ) : roundHE (-q) = - roundHE q := by
  by_cases hz : (⌊q⌋ : ℚ) = q
  · have h1 : roundHE q = ⌊q⌋ := by
      unfold roundHE
      rw [hz]
      norm_num
    have h2 : -q = ((-⌊q⌋ : ℤ) : ℚ) := by
      push_cast
      rw [hz]
    rw [h2, roundHE_intCast, h1]
  · have h1 : (⌊q⌋ : ℚ) < q := lt_of_le_of_ne (Int.floor_le q) hz
    have h2 : q < (⌊q⌋ : ℚ) + 1 := Int.lt_floor_add_one q
    have hfloor : ⌊-q⌋ = -⌊q⌋ - 1 := by
      rw [Int.floor_eq_iff]
      constructor
      · push_cast
        linarith
      · push_cast
        linarith
    unfold roundHE
    rw [hfloor]
    push_cast
    split_ifs <;> first | omega | linarith

theorem roundHE2_mono {p q : ℚ} (h : p ≤ q) : roundHE2 p ≤ roundHE2 q := by
  unfold roundHE2
  have h1 := roundHE_mono (mul_le_mul_of_nonneg_right h (by norm_num : (0:ℚ) ≤ 100))
  have h2 : ((roundHE (p * 100) : ℤ) : ℚ) ≤ ((roundHE (q * 100) : ℤ) : ℚ) := by
    exact_mod_cast h1
  linarith

theorem roundHE2_zero : roundHE2 0 = 0 := by
  unfold roundHE2
  rw [show (0:ℚ) * 100 = ((0 : ℤ) : ℚ) by norm_num, roundHE_intCast]
  norm_num

theorem roundHE2_neg (q : ℚ) : roundHE2 (-q) = - roundHE2 q := by
  unfold roundHE2
  rw [show -q * 100 = -(q * 100) by ring, roundHE_neg]
  push_cast
  ring

theorem roundHE2_nonneg {q : ℚ} (h : 0 ≤ q) : 0 ≤ roundHE2 q := by
  have h1 := roundHE2_mono h
  rwa [roundHE2_zero] at h1

theorem abs_roundHE2 (q : ℚ) : |roundHE2 q| = roundHE2 |q| := by
  rcases le_total 0 q with h | h
  · rw [abs_of_nonneg h, abs_of_nonneg (roundHE2_nonneg h)]
  · have h2 : roundHE2 q ≤ 0 := by
      have h3 := roundHE2_mono h
      rwa [roundHE2_zero] at h3
    rw [abs_of_nonpos h, abs_of_nonpos h2, roundHE2_neg]

theorem abs_roundHE2_le_of_abs_le {p q : ℚ} (h : |p| ≤ |q|) :
    |roundHE2 p| ≤ |roundHE2 q| := by
  rw [abs_roundHE2, abs_roundHE2]
  exact roundHE2_mono h

theorem isRounded2_roundHE2 (q : ℚ) : isRounded2 (roundHE2 q) := by
  unfold isRounded2 roundHE2
  rw [div_mul_cancel₀ _ (show (100:ℚ) ≠ 0 by norm_num)]
  exact Rat.den_intCast _

/-! ### Structural lemmas about grouping and delta tables -/

theorem groupby_sum_keys (df : DataFrame) (key value : String) :
    (groupby_sum df key value).map Prod.fst = groupKeys df key := by
  unfold groupby_sum
  rw [List.map_map]
  exact List.map_id _

theorem groupKeys_ne_null {df : DataFrame} {key : String} {k : CVal}
    (hk : k ∈ groupKeys df key) : k ≠ CVal.null := by
  unfold groupKeys at hk
  have h1 := List.mem_dedup.1 (mem_sortB.1 hk)
  exact bne_iff_ne.1 (List.mem_filter.1 h1).2

theorem mem_groupKeys_colValues {df : DataFrame} {key : String} {k : CVal}
    (hk : k ∈ groupKeys df key) : k ∈ colValues df key := by
  unfold groupKeys at hk
  exact (List.mem_filter.1 (List.mem_dedup.1 (mem_sortB.1 hk))).1

theorem lookupQ_eq_none {l : List (CVal × ℚ)} {k : CVal}
    (h : k ∉ l.map Prod.fst) : lookupQ l k = none := by
  unfold lookupQ
  have h2 : List.find? (fun p => p.1 == k) l = none := by
    apply List.find?_eq_none.2
    intro p hp hbeq
    exact h (List.mem_map.2 ⟨p, hp, beq_iff_eq.1 hbeq⟩)
  rw [h2]
  rfl

theorem combined_rows_map_name (cur_df prev_df : DataFrame) (key value : String) :
    (combined_rows cur_df prev_df key value).map DeltaRow.name =
      outer_keys (groupby_sum cur_df key value) (groupby_sum prev_df key value) := by
  unfold combined_rows
  rw [List.map_map]
  exact List.map_id _

theorem mem_combined_rows {cur_df prev_df : DataFrame} {key value : String}
    {r : DeltaRow} (hr : r ∈ combined_rows cur_df prev_df key value) :
    r.name ∈ groupKeys cur_df key ∨ r.name ∈ groupKeys prev_df key := by
  have h1 : r.name ∈ (combined_rows cur_df prev_df key value).map DeltaRow.name :=
    List.mem_map.2 ⟨r, hr, rfl⟩
  rw [combined_rows_map_name] at h1
  unfold outer_keys at h1
  have h2 := List.mem_dedup.1 (mem_sortB.1 h1)
  rcases List.mem_append.1 h2 with h3 | h3
  · left
    rw [groupby_sum_keys] at h3
    exact h3
  · right
    rw [groupby_sum_keys] at h3
    exact h3

theorem mem_delta_table {cur_df prev_df : DataFrame} {key value : String}
    {n : Nat} {b : Bool} {r : DeltaRow}
    (hr : r ∈ delta_table cur_df prev_df key value n b) :
    ∃ r0, r0 ∈ combined_rows cur_df prev_df key value ∧ r = roundDeltaRow r0 := by
  unfold delta_table at hr
  split at hr
  · simp at hr
  · simp only [] at hr
    rcases List.mem_map.1 hr with ⟨r0, hr0, rfl⟩
    refine ⟨r0, ?_, rfl⟩
    have h1 := List.mem_of_mem_take hr0
    split at h1
    · exact mem_sortDescBy.1 h1
    · exact mem_sortDescBy.1 h1

theorem combined_rows_shape {cur_df prev_df : DataFrame} {key value : String}
    {r : DeltaRow} (hr : r ∈ combined_rows cur_df prev_df key value) :
    r.current = (lookupQ (groupby_sum cur_df key value) r.name).getD 0 ∧
    r.previous = (lookupQ (groupby_sum prev_df key value) r.name).getD 0 ∧
    r.delta = r.current - r.previous ∧
    r.pct_change = safe_pct_change r.current r.previous := by
  unfold combined_rows at hr
  simp only [List.mem_map] at hr
  obtain ⟨k, hk, rfl⟩ := hr
  exact ⟨rfl, rfl, rfl, rfl⟩

/-! ### Claim theorems -/

/-- C3: the delta-table combine step is an outer combine by dimension value:
its keys are exactly the union of the two groupings' keys, a value present
only in the current period gets previous = 0 and delta = current, a value
present only in the previous period gets current = 0 and delta = -previous;
concretely, a title with 50 minutes only in the previous period yields the
row (current 0, previous 50, delta -50, pct_change -100). -/
theorem C3_outer_combine (cur_df prev_df : DataFrame) (key value : String) :
    (∀ k : CVal,
      (k ∈ (groupby_sum cur_df key value).map Prod.fst ∨
        k ∈ (groupby_sum prev_df key value).map Prod.fst) ↔
      k ∈ (combined_rows cur_df prev_df key value).map DeltaRow.name) ∧
    (∀ r ∈ combined_rows cur_df prev_df key value,
      r.name ∉ (groupby_sum prev_df key value).map Prod.fst →
      r.previous = 0 ∧ r.delta = r.current) ∧
    (∀ r ∈ combined_rows cur_df prev_df key value,
      r.name ∉ (groupby_sum cur_df key value).map Prod.fst →
      r.current = 0 ∧ r.delta = -r.previous) ∧
    delta_table exCur3 exPrev3 "title" "watch_duration_minutes" 6 true =
      [⟨CVal.str "Old Show", 0, 50, -50, some (-100)⟩] := by
  refine ⟨?_, ?_, ?_, ?_⟩
  · intro k
    rw [combined_rows_map_name]
    unfold outer_keys
    rw [mem_sortB, List.mem_dedup, List.mem_append]
  · intro r hr hnp
    obtain ⟨hc, hp, hd, _⟩ := combined_rows_shape hr
    rw [lookupQ_eq_none hnp] at hp
    have hp0 : r.previous = 0 := hp
    refine ⟨hp0, ?_⟩
    rw [hd, hp0]
    ring
  · intro r hr hnc
    obtain ⟨hc, hp, hd, _⟩ := combined_rows_shape hr
    rw [lookupQ_eq_none hnc] at hc
    have hc0 : r.current = 0 := hc
    refine ⟨hc0, ?_⟩
    rw [hd, hc0]
    ring
  · exact of_decide_eq_true (by with_unfolding_all rfl)

/-- Witness for C3: the previous-only title of the concrete example. -/
theorem C3_witness :
    DeltaRow.current ⟨CVal.str "Old Show", 0, 50, -50, some (-100)⟩ = 0 ∧
    DeltaRow.delta ⟨CVal.str "Old Show", 0, 50, -50, some (-100)⟩ =
      - DeltaRow.previous ⟨CVal.str "Old Show", 0, 50, -50, some (-100)⟩ :=
  (C3_outer_combine exCur3 exPrev3 "title" "watch_duration_minutes").2.2.1
    ⟨CVal.str "Old Show", 0, 50, -50, some (-100)⟩
    (of_decide_eq_true (by with_unfolding_all rfl))
    (of_decide_eq_true (by with_unfolding_all rfl))

/-- C10: rows with a null dimension value feed no delta-table row and no
per-period group sum (every emitted row has a non-null dimension value),
while such rows are still counted in the total watch minutes. -/
theorem C10_null_rows (cur_df prev_df : DataFrame) (key value : String) (n : Nat)
    (b : Bool) (df : DataFrame) (r0 : Row) :
    (∀ r ∈ delta_table cur_df prev_df key value n b, r.name ≠ CVal.null) ∧
    (Row.get r0 key = CVal.null →
      groupby_sum ⟨df.cols, r0 :: df.rows⟩ key value = groupby_sum df key value) ∧
    totalMinutes ⟨df.cols, r0 :: df.rows⟩ =
      Row.getNum r0 "watch_duration_minutes" + totalMinutes df := by
  refine ⟨?_, ?_, ?_⟩
  · intro r hr
    obtain ⟨r1, hr1, rfl⟩ := mem_delta_table hr
    have hname : (roundDeltaRow r1).name = r1.name := rfl
    rw [hname]
    rcases mem_combined_rows hr1 with h | h
    · exact groupKeys_ne_null h
    · exact groupKeys_ne_null h
  · intro h0
    unfold groupby_sum
    have hk : groupKeys ⟨df.cols, r0 :: df.rows⟩ key = groupKeys df key := by
      unfold groupKeys colValues
      show sortB CVal.leB ((((r0 :: df.rows).map (fun r => Row.get r key)).filter
          (fun v => v != CVal.null)).dedup) = _
      rw [List.map_cons, List.filter_cons, h0]
      simp
    rw [hk]
    apply List.map_congr_left
    intro k hkm
    have hknn := groupKeys_ne_null hkm
    have hsum : sumWhere ⟨df.cols, r0 :: df.rows⟩ key k value = sumWhere df key k value := by
      unfold sumWhere
      show ((List.filter (fun r => Row.get r key == k) (r0 :: df.rows)).map
          (fun r => Row.getNum r value)).sum = _
      rw [List.filter_cons]
      have hfalse : (Row.get r0 key == k) = false := by
        rw [h0]
        exact beq_eq_false_iff_ne.2 (Ne.symm hknn)
      rw [hfalse]
      simp
    rw [hsum]
  · unfold totalMinutes
    show ((r0 :: df.rows).map (fun r => Row.getNum r "watch_duration_minutes")).sum = _
    rw [List.map_cons, List.sum_cons]

/-- Witness for C10: a null-title row added to the previous table changes no
group sum but raises the minutes total; the concrete delta row from the
example tables has a non-null name. -/
theorem C10_witness :
    DeltaRow.name ⟨CVal.str "Old Show", 0, 50, -50, some (-100)⟩ ≠ CVal.null ∧
    groupby_sum ⟨exPrev3.cols, nullTitleRow :: exPrev3.rows⟩ "title" "watch_duration_minutes" =
      groupby_sum exPrev3 "title" "watch_duration_minutes" ∧
    totalMinutes ⟨exPrev3.cols, nullTitleRow :: exPrev3.rows⟩ =
      Row.getNum nullTitleRow "watch_duration_minutes" + totalMinutes exPrev3 :=
  ⟨(C10_null_rows exCur3 exPrev3 "title" "watch_duration_minutes" 6 true exPrev3 nullTitleRow).1
      ⟨CVal.str "Old Show", 0, 50, -50, some (-100)⟩
      (of_decide_eq_true (by with_unfolding_all rfl)),
    (C10_null_rows exCur3 exPrev3 "title" "watch_duration_minutes" 6 true exPrev3 nullTitleRow).2.1
      (of_decide_eq_true (by with_unfolding_all rfl)),
    (C10_null_rows exCur3 exPrev3 "title" "watch_duration_minutes" 6 true exPrev3 nullTitleRow).2.2⟩

/-- C2: the percent-change computation returns null iff the previous value is
exactly 0, and otherwise `(current - previous) / previous * 100`; every
delta-table row's percent change is produced by this same rule, so division
by zero is never raised by any percent-change computation of the build. -/
theorem C2_safe_pct_change_rule (c p : ℚ) :
    (safe_pct_change c p = none ↔ p = 0) ∧
    (p ≠ 0 → safe_pct_change c p = some ((c - p) / p * 100)) ∧
    (∀ (cur prev : DataFrame) (key value : String) (r : DeltaRow),
      r ∈ combined_rows cur prev key value →
      r.pct_change = safe_pct_change r.current r.previous) ∧
    (∀ (full_df filtered_df : DataFrame) (s e : ℤ) (g : String) (ch : Changes),
      (build_evidence full_df filtered_df s e g).changes = some ch →
      (prev_slice full_df s e g).rows.isEmpty = false →
      ch.total_watch_minutes_pct_change =
        safe_pct_change (period_aggregates filtered_df).total_watch_minutes
          (period_aggregates (prev_slice full_df s e g)).total_watch_minutes ∧
      ch.active_users_pct_change =
        safe_pct_change ((period_aggregates filtered_df).active_users : ℚ)
          ((period_aggregates (prev_slice full_df s e g)).active_users : ℚ) ∧
      ch.titles_watched_pct_change =
        safe_pct_change ((period_aggregates filtered_df).titles_watched : ℚ)
          ((period_aggregates (prev_slice full_df s e g)).titles_watched : ℚ) ∧
      ch.engagement.minutes_per_user_pct_change =
        safe_pct_change
          ((period_aggregates filtered_df).total_watch_minutes /
            ((max (period_aggregates filtered_df).active_users 1 : ℕ) : ℚ))
          ((period_aggregates (prev_slice full_df s e g)).total_watch_minutes /
            ((max (period_aggregates (prev_slice full_df s e g)).active_users 1 : ℕ) : ℚ))) := by
  refine ⟨?_, ?_, ?_, ?_⟩
  · unfold safe_pct_change
    split_ifs with h
    · simp [h]
    · simp [h]
  · intro hp
    unfold safe_pct_change
    simp [hp]
  · intro cur prev key value r hr
    unfold combined_rows at hr
    simp only [List.mem_map] at hr
    obtain ⟨k, hk, rfl⟩ := hr
    rfl
  · intro full_df filtered_df s e g ch hch hp
    unfold build_evidence at hch
    simp only [] at hch
    split_ifs at hch with h1 h2 <;>
      first
        | exact Option.noConfusion hch
        | (rw [h2] at hp
           exact Bool.noConfusion hp)
        | (injection hch with h3
           subst h3
           exact ⟨rfl, rfl, rfl, rfl⟩)

/-- Witness for C2 at current 3, previous 2. -/
theorem C2_witness : safe_pct_change 3 2 = some ((3 - 2) / 2 * 100) :=
  (C2_safe_pct_change_rule 3 2).2.1 (by norm_num)

/-- C4: with an empty current filtered table the packet carries the filters,
empty current/previous/changes, and exactly the no-data note; nothing is
aggregated. -/
theorem C4_empty_current (full_df filtered_df : DataFrame) (s e : ℤ) (g : String)
    (h : filtered_df.rows = []) :
    build_evidence full_df filtered_df s e g =
      ⟨⟨s, e, g⟩, none, none, none, "No data available for the selected filters."⟩ := by
  unfold build_evidence
  rw [h]
  rfl

/-- Witness for C4 on a concrete empty current slice. -/
theorem C4_witness :
    build_evidence full5 (⟨evCols, []⟩ : DataFrame) 10 10 "All" =
      ⟨⟨10, 10, "All"⟩, none, none, none,
        "No data available for the selected filters."⟩ :=
  C4_empty_current full5 ⟨evCols, []⟩ 10 10 "All" rfl

/-- C9: an absent dimension column degrades to an empty result without an
error: `_top_n` gives `[]` when the group column is missing, `_delta_table`
gives `[]` when the dimension is missing from either table. -/
theorem C9_missing_column (df cur prev : DataFrame) (g v key value : String)
    (n m : Nat) (b : Bool) :
    (g ∉ df.cols → top_n df g v n = []) ∧
    (key ∉ cur.cols ∨ key ∉ prev.cols → delta_table cur prev key value m b = []) := by
  constructor
  · intro h
    unfold top_n
    rw [if_pos h]
  · intro h
    unfold delta_table
    rw [if_pos h]

/-- Witness for C9 on a table lacking the requested column. -/
theorem C9_witness :
    top_n (⟨["a"], []⟩ : DataFrame) "g" "v" 5 = [] ∧
    delta_table (⟨["a"], []⟩ : DataFrame) (⟨["a"], []⟩ : DataFrame) "g" "v" 5 true = [] :=
  ⟨(C9_missing_column ⟨["a"], []⟩ ⟨["a"], []⟩ ⟨["a"], []⟩ "g" "v" "g" "v" 5 5 true).1
      (of_decide_eq_true (by with_unfolding_all rfl)),
    (C9_missing_column ⟨["a"], []⟩ ⟨["a"], []⟩ ⟨["a"], []⟩ "g" "v" "g" "v" 5 5 true).2
      (Or.inl (of_decide_eq_true (by with_unfolding_all rfl)))⟩

/-- C1: for start ≤ end and a non-empty current slice, the packet's
previous-window block is derived as windowDays = (end − start) + 1,
prevEnd = start − 1, prevStart = prevEnd − (windowDays − 1); the previous
window has the same length as the current window and ends the day before
the current start. -/
theorem C1_previous_window (full_df filtered_df : DataFrame) (s e : ℤ) (g : String)
    (hse : s ≤ e) (hne : filtered_df.rows ≠ []) :
    (build_evidence full_df filtered_df s e g).changes.map
        (fun ch => ch.previous_window) =
      some ⟨prev_start_date s e, prev_end_date s, window_days s e⟩ ∧
    window_days s e = (e - s) + 1 ∧
    prev_end_date s = s - 1 ∧
    prev_start_date s e = prev_end_date s - (window_days s e - 1) ∧
    prev_end_date s - prev_start_date s e + 1 = window_days s e ∧
    0 < window_days s e := by
  refine ⟨?_, ?_, ?_, ?_, ?_, ?_⟩
  · unfold build_evidence
    rw [if_neg (by simp [hne])]
    simp only []
    split_ifs with h
    · rfl
    · rfl
  · rfl
  · rfl
  · rfl
  · simp only [window_days, prev_end_date, prev_start_date]
    omega
  · simp only [window_days]
    omega

/-- Witness for C1 on the one-day window 10..10. -/
theorem C1_witness :
    (build_evidence full5 filtered5 10 10 "All").changes.map
        (fun ch => ch.previous_window) =
      some ⟨prev_start_date 10 10, prev_end_date 10, window_days 10 10⟩ ∧
    window_days 10 10 = (10 - 10) + 1 ∧
    prev_end_date 10 = 10 - 1 ∧
    prev_start_date 10 10 = prev_end_date 10 - (window_days 10 10 - 1) ∧
    prev_end_date 10 - prev_start_date 10 10 + 1 = window_days 10 10 ∧
    0 < window_days 10 10 :=
  C1_previous_window full5 filtered5 10 10 "All" (by norm_num)
    (of_decide_eq_true (by with_unfolding_all rfl))

/-- C5: non-empty current slice but empty previous slice: previous period is
empty, the three top-line changes are null, driver deltas are the empty
mapping, engagement carries only the current minutes-per-user figure, and
the note explains the missing prior window. -/
theorem C5_previous_empty (full_df filtered_df : DataFrame) (s e : ℤ) (g : String)
    (hne : filtered_df.rows ≠ []) (hprev : (prev_slice full_df s e g).rows = []) :
    build_evidence full_df filtered_df s e g =
      ⟨⟨s, e, g⟩, some (period_aggregates filtered_df), none,
        some ⟨none, none, none,
          ⟨prev_start_date s e, prev_end_date s, window_days s e⟩,
          ⟨roundHE2 ((period_aggregates filtered_df).total_watch_minutes /
              ((max (period_aggregates filtered_df).active_users 1 : ℕ) : ℚ)),
            none, none⟩,
          []⟩,
        "Previous period comparison unavailable (no data in the prior time window)."⟩ := by
  unfold build_evidence
  rw [if_neg (by simp [hne])]
  rw [if_pos (by simp [hprev])]

/-- Witness for C5: data exists only in the current window 10..10. -/
theorem C5_witness :
    build_evidence full5 filtered5 10 10 "All" =
      ⟨⟨10, 10, "All"⟩, some (period_aggregates filtered5), none,
        some ⟨none, none, none,
          ⟨prev_start_date 10 10, prev_end_date 10, window_days 10 10⟩,
          ⟨roundHE2 ((period_aggregates filtered5).total_watch_minutes /
              ((max (period_aggregates filtered5).active_users 1 : ℕ) : ℚ)),
            none, none⟩,
          []⟩,
        "Previous period comparison unavailable (no data in the prior time window)."⟩ :=
  C5_previous_empty full5 filtered5 10 10 "All"
    (of_decide_eq_true (by with_unfolding_all rfl))
    (of_decide_eq_true (by with_unfolding_all rfl))

/-- C6 counterexample: the combined frame of concrete tables has two rows
with equal absolute deltas (-30 and +30); both the insertion order and its
reversal satisfy the full guarantee of pandas `sort_values(ascending=False)`
with its default (unstable) quicksort, so the program does not guarantee
that rows with equal sort keys keep their underlying insertion order. -/
theorem C6_counterexample :
    combined_rows exCur6c exPrev6c "title" "watch_duration_minutes" =
      [⟨CVal.str "A", 10, 40, -30, some (-75)⟩,
        ⟨CVal.str "B", 40, 10, 30, some 300⟩] ∧
    SortValuesDesc (fun r => |r.delta|)
      (combined_rows exCur6c exPrev6c "title" "watch_duration_minutes")
      [⟨CVal.str "A", 10, 40, -30, some (-75)⟩,
        ⟨CVal.str "B", 40, 10, 30, some 300⟩] ∧
    SortValuesDesc (fun r => |r.delta|)
      (combined_rows exCur6c exPrev6c "title" "watch_duration_minutes")
      [⟨CVal.str "B", 40, 10, 30, some 300⟩,
        ⟨CVal.str "A", 10, 40, -30, some (-75)⟩] ∧
    ([⟨CVal.str "B", 40, 10, 30, some 300⟩,
        ⟨CVal.str "A", 10, 40, -30, some (-75)⟩] : List DeltaRow) ≠
      [⟨CVal.str "A", 10, 40, -30, some (-75)⟩,
        ⟨CVal.str "B", 40, 10, 30, some 300⟩] :=
  ⟨of_decide_eq_true (by with_unfolding_all rfl),
    of_decide_eq_true (by with_unfolding_all rfl),
    of_decide_eq_true (by with_unfolding_all rfl),
    of_decide_eq_true (by with_unfolding_all rfl)⟩

/-- C6 (amended): `_delta_table` returns at most `n` rows; with
`sort_by_abs` true the rows descend by the absolute value of delta and
otherwise by signed delta; the output is the first `n` rows (then rounded)
of a descending reordering of the combined frame, as pandas `sort_values`
guarantees; the relative order of rows with equal sort keys is
implementation-defined (the default quicksort is not stable), not
guaranteed to be the underlying insertion order. -/
theorem C6_delta_table_amended (cur_df prev_df : DataFrame) (key value : String)
    (n : Nat) (b : Bool) :
    (delta_table cur_df prev_df key value n b).length ≤ n ∧
    (b = true →
      (delta_table cur_df prev_df key value n b).Pairwise
        (fun r s => |s.delta| ≤ |r.delta|) ∧
      (key ∈ cur_df.cols → key ∈ prev_df.cols →
        ∃ sorted : List DeltaRow,
          SortValuesDesc (fun r => |r.delta|)
            (combined_rows cur_df prev_df key value) sorted ∧
          delta_table cur_df prev_df key value n b =
            (sorted.take n).map roundDeltaRow)) ∧
    (b = false →
      (delta_table cur_df prev_df key value n b).Pairwise
        (fun r s => s.delta ≤ r.delta) ∧
      (key ∈ cur_df.cols → key ∈ prev_df.cols →
        ∃ sorted : List DeltaRow,
          SortValuesDesc (fun r => r.delta)
            (combined_rows cur_df prev_df key value) sorted ∧
          delta_table cur_df prev_df key value n b =
            (sorted.take n).map roundDeltaRow)) := by
  refine ⟨?_, ?_, ?_⟩
  · unfold delta_table
    split
    · simp
    · simp only []
      rw [List.length_map, List.length_take]
      exact min_le_left n _
  · intro hb
    subst hb
    constructor
    · unfold delta_table
      split
      · simp
      · simp only [if_true]
        have hs := pairwise_sortDescBy (fun r => |r.delta|)
          (combined_rows cur_df prev_df key value)
        have ht := hs.sublist (List.take_sublist n _)
        refine (List.pairwise_map).2 (ht.imp ?_)
        intro a c hac
        show |roundHE2 c.delta| ≤ |roundHE2 a.delta|
        exact abs_roundHE2_le_of_abs_le hac
    · intro h1 h2
      refine ⟨sortDescBy (fun r => |r.delta|) (combined_rows cur_df prev_df key value),
        sortValuesDesc_sortDescBy _ _, ?_⟩
      unfold delta_table
      rw [if_neg (by simp [h1, h2])]
      rfl
  · intro hb
    subst hb
    constructor
    · unfold delta_table
      split
      · simp
      · simp only [if_false]
        have hs := pairwise_sortDescBy (fun r => r.delta)
          (combined_rows cur_df prev_df key value)
        have ht := hs.sublist (List.take_sublist n _)
        refine (List.pairwise_map).2 (ht.imp ?_)
        intro a c hac
        show roundHE2 c.delta ≤ roundHE2 a.delta
        exact roundHE2_mono hac
    · intro h1 h2
      refine ⟨sortDescBy (fun r => r.delta) (combined_rows cur_df prev_df key value),
        sortValuesDesc_sortDescBy _ _, ?_⟩
      unfold delta_table
      rw [if_neg (by simp [h1, h2])]
      rfl

/-- Witness for C6 (amended) on concrete tables with a one-row cap. -/
theorem C6_witness :
    (delta_table exCur6 exPrev6 "title" "watch_duration_minutes" 1 true).length ≤ 1 ∧
    (delta_table exCur6 exPrev6 "title" "watch_duration_minutes" 1 true).Pairwise
      (fun r s => |s.delta| ≤ |r.delta|) ∧
    ∃ sorted : List DeltaRow,
      SortValuesDesc (fun r => |r.delta|)
        (combined_rows exCur6 exPrev6 "title" "watch_duration_minutes") sorted ∧
      delta_table exCur6 exPrev6 "title" "watch_duration_minutes" 1 true =
        (sorted.take 1).map roundDeltaRow :=
  ⟨(C6_delta_table_amended exCur6 exPrev6 "title" "watch_duration_minutes" 1 true).1,
    ((C6_delta_table_amended exCur6 exPrev6 "title" "watch_duration_minutes" 1 true).2.1
        rfl).1,
    ((C6_delta_table_amended exCur6 exPrev6 "title" "watch_duration_minutes" 1 true).2.1
        rfl).2
      (of_decide_eq_true (by with_unfolding_all rfl))
      (of_decide_eq_true (by with_unfolding_all rfl))⟩

/-- C7 counterexample: on the concrete build (1 current user, 3 previous
users) the top-line active-users percent change in the packet is -200/3,
which is not a two-decimal value, so not every defined percent change in
the packet is rounded to 2 decimal places. -/
theorem C7_counterexample :
    (build_evidence full7 filtered7 10 10 "All").changes.map
        (fun ch => ch.active_users_pct_change) = some (some (-200 / 3)) ∧
    ¬ isRounded2 ((-200 : ℚ) / 3) :=
  ⟨of_decide_eq_true (by with_unfolding_all rfl),
    of_decide_eq_true (by with_unfolding_all rfl)⟩

/-- C7 (amended): the numeric fields of every delta-table row (current,
previous, delta, and pct_change when defined) are rounded to two decimals,
and the engagement minutes-per-user current and previous figures in the
packet are rounded to two decimals; the three top-line percent changes and
the engagement percent change are emitted unrounded. -/
theorem C7_rounding_amended (cur_df prev_df : DataFrame) (key value : String)
    (n : Nat) (b : Bool) (full_df filtered_df : DataFrame) (s e : ℤ) (g : String) :
    (∀ r ∈ delta_table cur_df prev_df key value n b,
      isRounded2 r.current ∧ isRounded2 r.previous ∧ isRounded2 r.delta ∧
        ∀ q, r.pct_change = some q → isRounded2 q) ∧
    (∀ ch, (build_evidence full_df filtered_df s e g).changes = some ch →
      isRounded2 ch.engagement.minutes_per_user_current ∧
        ∀ q, ch.engagement.minutes_per_user_previous = some q → isRounded2 q) := by
  constructor
  · intro r hr
    obtain ⟨r1, hr1, rfl⟩ := mem_delta_table hr
    refine ⟨isRounded2_roundHE2 _, isRounded2_roundHE2 _, isRounded2_roundHE2 _, ?_⟩
    intro q hq
    have hpc : (roundDeltaRow r1).pct_change = Option.map roundHE2 r1.pct_change := rfl
    rw [hpc] at hq
    rcases Option.map_eq_some'.1 hq with ⟨q0, _, rfl⟩
    exact isRounded2_roundHE2 q0
  · intro ch hch
    unfold build_evidence at hch
    simp only [] at hch
    split_ifs at hch with h1 h2 <;>
      first
        | exact Option.noConfusion hch
        | (injection hch with h3
           subst h3
           refine ⟨isRounded2_roundHE2 _, ?_⟩
           intro q hq
           first
             | exact Option.noConfusion hq
             | (injection hq with h4
                subst h4
                exact isRounded2_roundHE2 _))

/-- Witness for C7 (amended) on a concrete delta-table row. -/
theorem C7_witness :
    isRounded2 (DeltaRow.current ⟨CVal.str "A", 10, 40, -30, some (-75)⟩) ∧
    isRounded2 (DeltaRow.previous ⟨CVal.str "A", 10, 40, -30, some (-75)⟩) ∧
    isRounded2 (DeltaRow.delta ⟨CVal.str "A", 10, 40, -30, some (-75)⟩) :=
  ⟨((C7_rounding_amended exCur6 exPrev6 "title" "watch_duration_minutes" 6 true
        full5 filtered5 10 10 "All").1 ⟨CVal.str "A", 10, 40, -30, some (-75)⟩
      (of_decide_eq_true (by with_unfolding_all rfl))).1,
    ((C7_rounding_amended exCur6 exPrev6 "title" "watch_duration_minutes" 6 true
        full5 filtered5 10 10 "All").1 ⟨CVal.str "A", 10, 40, -30, some (-75)⟩
      (of_decide_eq_true (by with_unfolding_all rfl))).2.1,
    ((C7_rounding_amended exCur6 exPrev6 "title" "watch_duration_minutes" 6 true
        full5 filtered5 10 10 "All").1 ⟨CVal.str "A", 10, 40, -30, some (-75)⟩
      (of_decide_eq_true (by with_unfolding_all rfl))).2.2.1⟩

/-- C8 counterexample: in a table whose largest group is the null dimension
value (100 minutes versus 10), the top-N output contains only the non-null
value — rows with a null dimension value are silently dropped by the
grouping, contrary to the claim that nulls form their own group. -/
theorem C8_counterexample :
    top_n exDf8 "g" "v" 5 = [(CVal.str "Drama", 10)] ∧
    Row.get [("g", CVal.null), ("v", CVal.num 100)] "g" = CVal.null ∧
    CVal.null ∉ (top_n exDf8 "g" "v" 5).map Prod.fst :=
  ⟨of_decide_eq_true (by with_unfolding_all rfl),
    of_decide_eq_true (by with_unfolding_all rfl),
    of_decide_eq_true (by with_unfolding_all rfl)⟩

/-- C8 (amended): the top-N breakdown groups by the raw dimension value,
except that rows with a null dimension value are dropped by the grouping
(pandas `groupby` default); the list is capped at N entries, sorted
descending by summed watch minutes, and every entry is a dimension value
occurring in the table paired with its group sum. -/
theorem C8_top_n_amended (df : DataFrame) (g v : String) (n : Nat) :
    (top_n df g v n).length ≤ n ∧
    (top_n df g v n).Pairwise (fun a b => b.2 ≤ a.2) ∧
    (∀ p ∈ top_n df g v n,
      p.1 ≠ CVal.null ∧ p.1 ∈ colValues df g ∧ p.2 = sumWhere df g p.1 v) := by
  refine ⟨?_, ?_, ?_⟩
  · unfold top_n
    split
    · simp
    · rw [List.length_take]
      exact min_le_left n _
  · unfold top_n
    split
    · simp
    · exact ((pairwise_sortDescBy (fun p : CVal × ℚ => p.2) _).sublist
        (List.take_sublist n _)).imp (fun h => h)
  · intro p hp
    unfold top_n at hp
    split at hp
    · simp at hp
    · have h1 := mem_sortDescBy.1 (List.mem_of_mem_take hp)
      unfold groupby_sum at h1
      rcases List.mem_map.1 h1 with ⟨k, hk, rfl⟩
      exact ⟨groupKeys_ne_null hk, mem_groupKeys_colValues hk, rfl⟩

/-- Witness for C8 (amended): the surviving non-null entry of the concrete
table. -/
theorem C8_witness :
    (top_n exDf8 "g" "v" 5).length ≤ 5 ∧
    ((CVal.str "Drama", (10 : ℚ)).1 ≠ CVal.null ∧
      (CVal.str "Drama", (10 : ℚ)).1 ∈ colValues exDf8 "g" ∧
      (CVal.str "Drama", (10 : ℚ)).2 = sumWhere exDf8 "g" (CVal.str "Drama", (10 : ℚ)).1 "v") :=
  ⟨(C8_top_n_amended exDf8 "g" "v" 5).1,
    (C8_top_n_amended exDf8 "g" "v" 5).2.2 (CVal.str "Drama", 10)
      (of_decide_eq_true (by with_unfolding_all rfl))⟩

end Dash
